import Mathlib

/-!
Verification of the x402-data-utils invoice/proof gate.

The repository ships the Next.js client (`website/components/header.tsx`,
`static/website-improvement/app/page.tsx`) and the README describing the
FastAPI backend.  The backend modules themselves (PricingPolicy,
InvoiceIssuer, NonceLedger, ProofVerifier, GateController) are not part of
the checked-in sources, so they are modelled here from the specification
(sections 4.1-4.7); every such definition carries a doc comment starting
with "Modelled from the spec".  Client-side behaviour is embedded directly
from the TypeScript sources.

Timestamps are modelled as natural-number epoch seconds (the spec works
with `expires_at = issued_at + TTL`, TTL in seconds); when a timestamp is
interpolated into a string it is rendered in decimal by `Nat.repr`, the
same rendering on both the signing and the verifying side.
-/

namespace X402

/-- Invoice record, spec section 3: one offer to pay for one call to one
route.  Field order follows the spec's data model. -/
structure Invoice where
  invoice_id : String
  path : String
  price : String
  pay_to : String
  nonce : String
  issued_at : Nat
  expires_at : Nat
deriving DecidableEq

/-- Proof envelope, spec section 3: the client-constructed retry payload. -/
structure Proof where
  invoice : Invoice
  payer : String
  signature : String
deriving DecidableEq

/-- Rejection reasons of the proof verifier, spec section 4.6. -/
inductive Reason where
  | PathMismatch
  | TermsMismatch
  | Expired
  | InvalidSignature
  | Replayed
deriving DecidableEq

/-- Verdict of the proof verifier, spec section 4.6. -/
inductive Verdict where
  | Accepted (payer : String)
  | Rejected (reason : Reason)
deriving DecidableEq

/-- Whether a verdict admits the request. -/
def Verdict.isAccepted : Verdict → Bool
  | .Accepted _ => true
  | .Rejected _ => false

/-- Result of one `tryRedeem` call, spec section 4.5. -/
inductive RedeemResult where
  | Ok
  | AlreadyRedeemed
deriving DecidableEq

/-- Modelled from the spec: the NonceLedger backing store (section 4.5) is
not under the checked-in sources; its state is the set of redeemed nonces,
held as a list. -/
structure Ledger where
  redeemed : List String
deriving DecidableEq

/-- Modelled from the spec: `NonceLedger.tryRedeem(nonce, now)` (section
4.5), the atomic check-and-mark operation.  The sequential function is the
linearization the spec demands of every backing store. -/
def tryRedeem (l : Ledger) (nonce : String) : RedeemResult × Ledger :=
  if nonce ∈ l.redeemed then (.AlreadyRedeemed, l)
  else (.Ok, ⟨nonce :: l.redeemed⟩)

/-- Modelled from the spec: the fixed per-route price table of
PricingPolicy (section 4.1); routes and prices from the repository README
("Endpoints & Prices"). -/
def routePrice (path : String) : Option String :=
  if path = "/validate/csv" then some "0.01"
  else if path = "/clean/dataframe" then some "0.05"
  else if path = "/extract/pdf" then some "0.05"
  else if path = "/summarize/logs" then some "0.02"
  else none

/-- Modelled from the spec: `PricingPolicy.priceFor(path) -> (price,
pay_to)` (section 4.1); `none` is the `UnknownRoute` failure.  The payee is
the operator-configured constant. -/
def priceFor (payTo path : String) : Option (String × String) :=
  (routePrice path).map (fun pr => (pr, payTo))

/-- Canonical message construction, embedded from
`website/components/header.tsx` line 108 (the template literal signed by
the client); it coincides with the frozen format of spec section 4.3. -/
def clientSignedMessage (inv : Invoice) : String :=
  "x402-local-wallet|invoice_id=" ++ inv.invoice_id
  ++ "|path=" ++ inv.path
  ++ "|price=" ++ inv.price
  ++ "|pay_to=" ++ inv.pay_to
  ++ "|nonce=" ++ inv.nonce
  ++ "|expires_at=" ++ Nat.repr inv.expires_at

/-- Modelled from the spec: the verifier-side canonical message derivation
(section 4.3), recomputed by ProofVerifier from the embedded invoice. -/
def canonicalMessage (inv : Invoice) : String :=
  "x402-local-wallet|invoice_id=" ++ inv.invoice_id
  ++ "|path=" ++ inv.path
  ++ "|price=" ++ inv.price
  ++ "|pay_to=" ++ inv.pay_to
  ++ "|nonce=" ++ inv.nonce
  ++ "|expires_at=" ++ Nat.repr inv.expires_at

/-- Modelled from the spec: `ProofVerifier.verify(proof, requestPath, now)`
(section 4.6).  `recover` stands for `SignatureVerifier.recover` (section
4.4), a pure function returning the recovered identity or `none` on an
invalid or malformed signature.  The five checks run in the spec's order;
only the final `tryRedeem` touches the ledger. -/
def verify (recover : String → String → Option String) (payTo : String)
    (p : Proof) (requestPath : String) (now : Nat) (l : Ledger) :
    Verdict × Ledger :=
  if p.invoice.path ≠ requestPath then (.Rejected .PathMismatch, l)
  else if priceFor payTo requestPath ≠ some (p.invoice.price, p.invoice.pay_to) then
    (.Rejected .TermsMismatch, l)
  else if ¬ now ≤ p.invoice.expires_at then (.Rejected .Expired, l)
  else if recover (canonicalMessage p.invoice) p.signature ≠ some p.payer then
    (.Rejected .InvalidSignature, l)
  else
    match tryRedeem l p.invoice.nonce with
    | (.Ok, l2) => (.Accepted p.payer, l2)
    | (.AlreadyRedeemed, l2) => (.Rejected .Replayed, l2)

/-- Modelled from the spec: the configured invoice TTL default (sections
3 and 4.2, "default 300s"). -/
def defaultInvoiceTTL : Nat := 300

/-- Failure mode of the invoice issuer, spec section 4.2. -/
inductive IssueError where
  | UnknownRoute
deriving DecidableEq

/-- Modelled from the spec: `InvoiceIssuer.issue(path, clock)` (section
4.2).  The fresh random identifier and nonce are passed in as `freshId` and
`freshNonce`; `now` is the clock reading. -/
def issue (payTo : String) (ttl : Nat) (freshId freshNonce : String)
    (path : String) (now : Nat) : Except IssueError Invoice :=
  match priceFor payTo path with
  | none => .error .UnknownRoute
  | some pp =>
    .ok { invoice_id := freshId, path := path, price := pp.1, pay_to := pp.2,
          nonce := freshNonce, issued_at := now, expires_at := now + ttl }

/-- Gate operating mode, spec section 4.7: selected once at configuration
time. -/
inductive GateMode where
  | wallet
  | mock
deriving DecidableEq

/-- Wire value of the mode discriminator. -/
def GateMode.modeString : GateMode → String
  | .wallet => "wallet"
  | .mock => "mock"

/-- Modelled from the spec: the challenge response (section 6): payment
required status, `price`/`pay_to`/`path` headers, JSON body with the full
invoice, redundant top-level price and pay_to, and the mode
discriminator. -/
structure Challenge where
  status : Nat
  headerPrice : String
  headerPayTo : String
  headerPath : String
  bodyInvoice : Invoice
  bodyPrice : String
  bodyPayTo : String
  bodyMode : String
deriving DecidableEq

/-- Modelled from the spec: construction of the challenge response from a
freshly issued invoice (section 6). -/
def mkChallenge (m : GateMode) (inv : Invoice) : Challenge :=
  { status := 402, headerPrice := inv.price, headerPayTo := inv.pay_to,
    headerPath := inv.path, bodyInvoice := inv, bodyPrice := inv.price,
    bodyPayTo := inv.pay_to, bodyMode := m.modeString }

/-- Parse result of the proof header on an incoming request, spec section
4.7: absent, structurally invalid, or a parsed Proof. -/
inductive ProofHeader where
  | absent
  | malformed
  | parsed (p : Proof)
deriving DecidableEq

/-- Per-request outcome of the gate, spec sections 3 and 4.7. -/
inductive GateOutcome where
  | challenge (c : Challenge)
  | admitted (receiptId payer invoiceId : String)
  | rejected (r : Reason)
  | malformedProof
  | unknownRoute
deriving DecidableEq

/-- Modelled from the spec: one step of the GateController state machine
(section 4.7) in wallet mode: no proof header issues a fresh invoice and
returns the challenge; a malformed header is terminal; a parsed proof goes
through ProofVerifier, and acceptance produces a receipt echoing payer and
invoice id. -/
def gateStep (mode : GateMode) (recover : String → String → Option String)
    (payTo : String) (ttl : Nat) (freshId freshNonce receiptId : String)
    (path : String) (ph : ProofHeader) (now : Nat) (l : Ledger) :
    GateOutcome × Ledger :=
  match ph with
  | .absent =>
    match issue payTo ttl freshId freshNonce path now with
    | .error .UnknownRoute => (.unknownRoute, l)
    | .ok inv => (.challenge (mkChallenge mode inv), l)
  | .malformed => (.malformedProof, l)
  | .parsed p =>
    match verify recover payTo p path now l with
    | (.Accepted payer, l2) => (.admitted receiptId payer p.invoice.invoice_id, l2)
    | (.Rejected r, l2) => (.rejected r, l2)

/-- Repeated `tryRedeem` calls with one nonce: the linearization of N
concurrent callers (spec section 4.5 demands the calls behave as some
sequential order). -/
def runRedeems (nonce : String) : Nat → Ledger → List RedeemResult × Ledger
  | 0, l => ([], l)
  | n + 1, l =>
    let r := tryRedeem l nonce
    let rest := runRedeems nonce n r.2
    (r.1 :: rest.1, rest.2)

/-- Repeated submissions of one proof through the verifier: the
linearization of N parallel submissions (spec section 8). -/
def runVerifies (recover : String → String → Option String) (payTo : String)
    (p : Proof) (path : String) (now : Nat) :
    Nat → Ledger → List Verdict × Ledger
  | 0, l => ([], l)
  | n + 1, l =>
    let r := verify recover payTo p path now l
    let rest := runVerifies recover payTo p path now n r.2
    (r.1 :: rest.1, rest.2)

/-- Request headers as an association list, as sent by the demo clients. -/
abbrev Headers := List (String × String)

/-- Embedding of `Headers.set(name, value)` as used by the clients: replace
the first entry with that name, keep the rest, append when absent (the
clients never hold duplicate names). -/
def setHeader : Headers → String → String → Headers
  | [], k, v => [(k, v)]
  | h :: t, k, v => if h.1 == k then (k, v) :: t else h :: setHeader t k v

/-- Embedding of `Headers.get(name)`. -/
def getHeader (hs : Headers) (k : String) : Option String :=
  (hs.find? (fun h => h.1 == k)).map (fun h => h.2)

/-- Lowercase hexadecimal digit, used by the JSON string escaper. -/
def hexDigitChar (n : Nat) : Char :=
  "0123456789abcdef".toList.getD n '0'

/-- One character of `JSON.stringify` string escaping. -/
def jsonEscapeChar (c : Char) : String :=
  if c = '\"' then "\\\""
  else if c = '\\' then "\\\\"
  else if c = '\x08' then "\\b"
  else if c = '\x09' then "\\t"
  else if c = '\x0a' then "\\n"
  else if c = '\x0c' then "\\f"
  else if c = '\x0d' then "\\r"
  else if c.toNat < 32 then
    "\\u00" ++ String.mk [hexDigitChar (c.toNat / 16), hexDigitChar (c.toNat % 16)]
  else String.singleton c

/-- `JSON.stringify` escaping of a whole string. -/
def jsonEscape (s : String) : String :=
  String.join (s.toList.map jsonEscapeChar)

/-- A JSON string literal. -/
def jsonStr (s : String) : String := "\"" ++ jsonEscape s ++ "\""

/-- Serialization of an Invoice as the JSON object the client re-emits
inside the proof (fields in the data-model order). -/
def jsonOfInvoice (inv : Invoice) : String :=
  "\x7b" ++ jsonStr "invoice_id" ++ ":" ++ jsonStr inv.invoice_id
  ++ "," ++ jsonStr "path" ++ ":" ++ jsonStr inv.path
  ++ "," ++ jsonStr "price" ++ ":" ++ jsonStr inv.price
  ++ "," ++ jsonStr "pay_to" ++ ":" ++ jsonStr inv.pay_to
  ++ "," ++ jsonStr "nonce" ++ ":" ++ jsonStr inv.nonce
  ++ "," ++ jsonStr "issued_at" ++ ":" ++ Nat.repr inv.issued_at
  ++ "," ++ jsonStr "expires_at" ++ ":" ++ Nat.repr inv.expires_at
  ++ "\x7d"

/-- Embedding of `JSON.stringify(\x7binvoice, payer, signature\x7d)` from
`website/components/header.tsx` lines 110-115: keys in the object-literal
order. -/
def jsonOfProof (p : Proof) : String :=
  "\x7b" ++ jsonStr "invoice" ++ ":" ++ jsonOfInvoice p.invoice
  ++ "," ++ jsonStr "payer" ++ ":" ++ jsonStr p.payer
  ++ "," ++ jsonStr "signature" ++ ":" ++ jsonStr p.signature
  ++ "\x7d"

/-- The base64 alphabet in index order. -/
def base64Alphabet : String :=
  "ABCDEFGHIJKLMNOPQRSTUVWXYZabcdefghijklmnopqrstuvwxyz0123456789+/"

/-- Character for a 6-bit group. -/
def b64Char (n : Nat) : Char := base64Alphabet.toList.getD n 'A'

/-- Standard base64 encoding of a byte list, with '=' padding. -/
def base64EncodeBytes : List Nat → String
  | [] => ""
  | [b1] =>
    String.mk [b64Char (b1 / 4), b64Char (b1 % 4 * 16)] ++ "=="
  | [b1, b2] =>
    String.mk [b64Char (b1 / 4), b64Char (b1 % 4 * 16 + b2 / 16),
               b64Char (b2 % 16 * 4)] ++ "="
  | b1 :: b2 :: b3 :: rest =>
    String.mk [b64Char (b1 / 4), b64Char (b1 % 4 * 16 + b2 / 16),
               b64Char (b2 % 16 * 4 + b3 / 64), b64Char (b3 % 64)]
    ++ base64EncodeBytes rest

/-- Embedding of the browser `btoa`: base64 over the character codes of a
latin-1 string (the proof JSON is ASCII). -/
def btoa (s : String) : String :=
  base64EncodeBytes (s.toList.map Char.toNat)

/-- Value of the `X-X402-Proof` header built by the wallet client,
`website/components/header.tsx` lines 110-116. -/
def proofHeaderValue (inv : Invoice) (walletAddress signature : String) : String :=
  btoa (jsonOfProof { invoice := inv, payer := walletAddress, signature := signature })

/-- Embedding of the JavaScript `a || b` chain on possibly-missing strings:
an absent or empty value falls through to the default. -/
def jsOr (a : Option String) (b : String) : String :=
  match a with
  | some s => if s = "" then b else s
  | none => b

/-- Mode resolution of the wallet client,
`website/components/header.tsx` line 94:
`res.headers.get("x-x402-mode") || body?.mode || "wallet"`. -/
def resolveMode (headerMode bodyMode : Option String) : String :=
  jsOr headerMode (jsOr bodyMode "wallet")

/-- The parts of a 402 response the wallet client's retry logic reads. -/
structure Resp402 where
  headerMode : Option String
  bodyMode : Option String
  bodyInvoice : Option Invoice
deriving DecidableEq

/-- Embedding of the retry-header construction of the wallet client,
`website/components/header.tsx` lines 102-119: when the resolved mode is
"wallet" and the body carries an invoice, sign the canonical message with
the local wallet and set `X-X402-Proof`; otherwise leave the headers
untouched (the retry at line 121 runs either way). -/
def walletRetryHeaders (sign : String → String) (walletAddress : String)
    (r : Resp402) (hdrs : Headers) : Headers :=
  if resolveMode r.headerMode r.bodyMode = "wallet" then
    match r.bodyInvoice with
    | some inv =>
      setHeader hdrs "X-X402-Proof"
        (proofHeaderValue inv walletAddress (sign (clientSignedMessage inv)))
    | none => hdrs
  else hdrs

/-- Status portion of a response as seen by the mock demo client. -/
structure ClientResponse where
  status : Nat
deriving DecidableEq

/-- Embedding of `handleRequest` of the mock demo client,
`static/website-improvement/app/page.tsx` lines 32-53: send the request;
on a 402, set `X-X402-Mock-Paid: true` and resend exactly once; return the
list of requests made (path and headers of each) with the final
response. -/
def mockHandleRequest (server : String → Headers → ClientResponse)
    (path : String) (hdrs : Headers) :
    List (String × Headers) × ClientResponse :=
  let res1 := server path hdrs
  if res1.status = 402 then
    let hdrs2 := setHeader hdrs "X-X402-Mock-Paid" "true"
    let res2 := server path hdrs2
    ([(path, hdrs), (path, hdrs2)], res2)
  else ([(path, hdrs)], res1)

/-- Example signature scheme used to instantiate witnesses: a signature is
valid exactly when it wraps the signed message, and always recovers the
fixed demo address. -/
def mockRecover (msg sig : String) : Option String :=
  if sig = "sig(" ++ msg ++ ")" then some "0xA" else none

/-- Example signer matching `mockRecover`. -/
def mockSign (msg : String) : String := "sig(" ++ msg ++ ")"

/-- Concrete invoice from the spec's section 8 scenario, at T = 100. -/
def invA : Invoice :=
  { invoice_id := "abc", path := "/summarize/logs", price := "0.02",
    pay_to := "0xPAY", nonce := "n1", issued_at := 100, expires_at := 400 }

/-- Proof over `invA` correctly signed under `mockRecover`. -/
def proofA : Proof :=
  { invoice := invA, payer := "0xA",
    signature := mockSign (canonicalMessage invA) }

/-! Helper lemmas on the ledger and verifier. -/

theorem tryRedeem_not_mem {l : Ledger} {nonce : String}
    (h : nonce ∉ l.redeemed) :
    tryRedeem l nonce = (.Ok, ⟨nonce :: l.redeemed⟩) := by
  simp [tryRedeem, h]

theorem tryRedeem_mem {l : Ledger} {nonce : String}
    (h : nonce ∈ l.redeemed) :
    tryRedeem l nonce = (.AlreadyRedeemed, l) := by
  simp [tryRedeem, h]

theorem verify_ok_fresh {recover : String → String → Option String}
    {payTo : String} {p : Proof} {path : String} {now : Nat} {l : Ledger}
    (hpath : p.invoice.path = path)
    (hterms : priceFor payTo path = some (p.invoice.price, p.invoice.pay_to))
    (htime : now ≤ p.invoice.expires_at)
    (hsig : recover (canonicalMessage p.invoice) p.signature = some p.payer)
    (hfresh : p.invoice.nonce ∉ l.redeemed) :
    verify recover payTo p path now l =
      (.Accepted p.payer, ⟨p.invoice.nonce :: l.redeemed⟩) := by
  simp [verify, hpath, hterms, htime, hsig, tryRedeem_not_mem hfresh]

theorem verify_replayed {recover : String → String → Option String}
    {payTo : String} {p : Proof} {path : String} {now : Nat} {l : Ledger}
    (hpath : p.invoice.path = path)
    (hterms : priceFor payTo path = some (p.invoice.price, p.invoice.pay_to))
    (htime : now ≤ p.invoice.expires_at)
    (hsig : recover (canonicalMessage p.invoice) p.signature = some p.payer)
    (hmem : p.invoice.nonce ∈ l.redeemed) :
    verify recover payTo p path now l = (.Rejected .Replayed, l) := by
  simp [verify, hpath, hterms, htime, hsig, tryRedeem_mem hmem]

theorem verify_mem_not_accepted {recover : String → String → Option String}
    {payTo : String} {p : Proof} {path : String} {now : Nat} {l : Ledger}
    (hmem : p.invoice.nonce ∈ l.redeemed) :
    ((verify recover payTo p path now l).1).isAccepted = false := by
  unfold verify
  split
  · rfl
  split
  · rfl
  split
  · rfl
  split
  · rfl
  rw [tryRedeem_mem hmem]
  rfl

theorem runRedeems_mem {l : Ledger} {nonce : String}
    (h : nonce ∈ l.redeemed) :
    ∀ n, runRedeems nonce n l = (List.replicate n .AlreadyRedeemed, l) := by
  intro n
  induction n with
  | zero => simp [runRedeems]
  | succ k ih => simp [runRedeems, tryRedeem_mem h, ih, List.replicate_succ]

theorem runRedeems_fresh {l : Ledger} {nonce : String}
    (h : nonce ∉ l.redeemed) (n : Nat) :
    runRedeems nonce (n + 1) l =
      (.Ok :: List.replicate n .AlreadyRedeemed, ⟨nonce :: l.redeemed⟩) := by
  have hmem : nonce ∈ (Ledger.mk (nonce :: l.redeemed)).redeemed := List.mem_cons_self _ _
  simp [runRedeems, tryRedeem_not_mem h, runRedeems_mem hmem]

theorem runVerifies_mem {recover : String → String → Option String}
    {payTo : String} {p : Proof} {path : String} {now : Nat} {l : Ledger}
    (hpath : p.invoice.path = path)
    (hterms : priceFor payTo path = some (p.invoice.price, p.invoice.pay_to))
    (htime : now ≤ p.invoice.expires_at)
    (hsig : recover (canonicalMessage p.invoice) p.signature = some p.payer)
    (hmem : p.invoice.nonce ∈ l.redeemed) :
    ∀ n, runVerifies recover payTo p path now n l =
      (List.replicate n (.Rejected .Replayed), l) := by
  intro n
  induction n with
  | zero => simp [runVerifies]
  | succ k ih =>
    simp [runVerifies, verify_replayed hpath hterms htime hsig hmem, ih,
      List.replicate_succ]

theorem runVerifies_fresh {recover : String → String → Option String}
    {payTo : String} {p : Proof} {path : String} {now : Nat} {l : Ledger}
    (hpath : p.invoice.path = path)
    (hterms : priceFor payTo path = some (p.invoice.price, p.invoice.pay_to))
    (htime : now ≤ p.invoice.expires_at)
    (hsig : recover (canonicalMessage p.invoice) p.signature = some p.payer)
    (hfresh : p.invoice.nonce ∉ l.redeemed) (n : Nat) :
    runVerifies recover payTo p path now (n + 1) l =
      (.Accepted p.payer :: List.replicate n (.Rejected .Replayed),
       ⟨p.invoice.nonce :: l.redeemed⟩) := by
  have hmem : p.invoice.nonce ∈ (Ledger.mk (p.invoice.nonce :: l.redeemed)).redeemed :=
    List.mem_cons_self _ _
  simp [runVerifies, verify_ok_fresh hpath hterms htime hsig hfresh,
    runVerifies_mem hpath hterms htime hsig hmem]

theorem countP_replicate {α : Type} (q : α → Bool) (a : α) (n : Nat) :
    (List.replicate n a).countP q = if q a then n else 0 := by
  induction n with
  | zero => simp
  | succ k ih =>
    rw [List.replicate_succ, List.countP_cons]
    by_cases h : q a <;> simp [h, ih]

/-! Helper lemmas on headers. -/

theorem getHeader_setHeader_self (hs : Headers) (k v : String) :
    getHeader (setHeader hs k v) k = some v := by
  induction hs with
  | nil => simp [setHeader, getHeader, List.find?]
  | cons h t ih =>
    by_cases hk : h.1 == k
    · simp [setHeader, hk, getHeader, List.find?]
    · simp only [setHeader, hk, if_false, Bool.false_eq_true]
      simpa [getHeader, List.find?, hk] using ih

theorem getHeader_setHeader_ne (hs : Headers) {k k2 : String} (v : String)
    (hne : k2 ≠ k) :
    getHeader (setHeader hs k v) k2 = getHeader hs k2 := by
  induction hs with
  | nil =>
    simp [setHeader, getHeader, List.find?, show (k == k2) = false by
      simpa [beq_iff_eq] using fun h => hne h.symm]
  | cons h t ih =>
    by_cases hk : h.1 == k
    · have hk2 : (k == k2) = false := by
        simpa [beq_iff_eq] using fun h2 => hne h2.symm
      have hh : h.1 = k := by simpa [beq_iff_eq] using hk
      have hh2 : (h.1 == k2) = false := by
        simp [beq_iff_eq, hh]
        exact fun h2 => hne h2.symm
      simp [setHeader, hk, getHeader, List.find?, hk2, hh2]
    · simp only [setHeader, hk, if_false, Bool.false_eq_true]
      by_cases hh2 : h.1 == k2
      · simp [getHeader, List.find?, hh2]
      · simpa [getHeader, List.find?, hh2] using ih

theorem countP_setHeader_of_absent (hs : Headers) (k v : String)
    (h : getHeader hs k = none) :
    (setHeader hs k v).countP (fun e => e.1 == k) = 1 := by
  induction hs with
  | nil => simp [setHeader, List.countP_cons]
  | cons e t ih =>
    by_cases hk : e.1 == k
    · exfalso
      simp [getHeader, List.find?, hk] at h
    · have ht : getHeader t k = none := by
        simpa [getHeader, List.find?, hk] using h
      simp only [setHeader, hk, if_false, Bool.false_eq_true]
      rw [List.countP_cons]
      simp [hk, ih ht]

/-! Claim theorems. -/

/-- C1: a Proof built from a correctly signed, unexpired, route-matching
Invoice is Accepted on first verification, a later submission of the
identical Proof is Rejected(Replayed), and a nonce already marked redeemed
in the ledger is never admitted again. -/
theorem claim1_accept_once_then_replayed
    (recover : String → String → Option String) (payTo : String)
    (p : Proof) (path : String) (now : Nat) (l : Ledger)
    (hpath : p.invoice.path = path)
    (hterms : priceFor payTo path = some (p.invoice.price, p.invoice.pay_to))
    (htime : now ≤ p.invoice.expires_at)
    (hsig : recover (canonicalMessage p.invoice) p.signature = some p.payer)
    (hfresh : p.invoice.nonce ∉ l.redeemed) :
    (verify recover payTo p path now l).1 = .Accepted p.payer ∧
    (verify recover payTo p path now
       (verify recover payTo p path now l).2).1 = .Rejected .Replayed ∧
    ∀ (l2 : Ledger) (q : Proof) (path2 : String) (now2 : Nat),
      q.invoice.nonce ∈ l2.redeemed →
      ((verify recover payTo q path2 now2 l2).1).isAccepted = false := by
  have h1 := verify_ok_fresh hpath hterms htime hsig hfresh
  refine ⟨by rw [h1], ?_, ?_⟩
  · rw [h1]
    have hmem : p.invoice.nonce ∈
        (Ledger.mk (p.invoice.nonce :: l.redeemed)).redeemed :=
      List.mem_cons_self _ _
    rw [verify_replayed hpath hterms htime hsig hmem]
  · intro l2 q path2 now2 hmem
    exact verify_mem_not_accepted hmem

/-- Witness for C1 at the spec's section 8 scenario. -/
theorem claim1_accept_once_then_replayed_witness :
    (verify mockRecover "0xPAY" proofA "/summarize/logs" 110 (Ledger.mk [])).1
      = .Accepted "0xA" ∧
    (verify mockRecover "0xPAY" proofA "/summarize/logs" 110
       (verify mockRecover "0xPAY" proofA "/summarize/logs" 110 (Ledger.mk [])).2).1
      = .Rejected .Replayed := by
  have h := claim1_accept_once_then_replayed mockRecover "0xPAY" proofA
    "/summarize/logs" 110 (Ledger.mk []) rfl (by decide) (by decide)
    (by decide) (by simp)
  exact ⟨h.1, h.2.1⟩

/-- C2: under the linearization the ledger's atomicity guarantees, N+1
calls of tryRedeem on the same fresh nonce yield exactly one Ok and N
AlreadyRedeemed, and N+1 submissions of the same valid Proof yield exactly
one Accepted and N Rejected(Replayed). -/
theorem claim2_exactly_one_redemption
    (recover : String → String → Option String) (payTo : String)
    (p : Proof) (path : String) (now : Nat) (l : Ledger) (n : Nat)
    (hpath : p.invoice.path = path)
    (hterms : priceFor payTo path = some (p.invoice.price, p.invoice.pay_to))
    (htime : now ≤ p.invoice.expires_at)
    (hsig : recover (canonicalMessage p.invoice) p.signature = some p.payer)
    (hfresh : p.invoice.nonce ∉ l.redeemed) :
    (∀ (nonce : String) (l2 : Ledger) (m : Nat), nonce ∉ l2.redeemed →
       (runRedeems nonce (m + 1) l2).1.count RedeemResult.Ok = 1 ∧
       (runRedeems nonce (m + 1) l2).1.count RedeemResult.AlreadyRedeemed = m) ∧
    (runVerifies recover payTo p path now (n + 1) l).1.countP
      (fun v => v.isAccepted) = 1 ∧
    (runVerifies recover payTo p path now (n + 1) l).1.count
      (Verdict.Rejected .Replayed) = n := by
  refine ⟨?_, ?_, ?_⟩
  · intro nonce l2 m h2
    rw [runRedeems_fresh h2]
    constructor
    · simp [List.count_cons, List.count_replicate]
    · simp [List.count_cons, List.count_replicate]
  · rw [runVerifies_fresh hpath hterms htime hsig hfresh]
    rw [List.countP_cons, countP_replicate]
    simp [Verdict.isAccepted]
  · rw [runVerifies_fresh hpath hterms htime hsig hfresh]
    simp [List.count_cons, List.count_replicate]

/-- Witness for C2 with three parallel submissions. -/
theorem claim2_exactly_one_redemption_witness :
    (runRedeems "n1" 3 (Ledger.mk [])).1.count RedeemResult.Ok = 1 ∧
    (runVerifies mockRecover "0xPAY" proofA "/summarize/logs" 110 3
       (Ledger.mk [])).1.countP (fun v => v.isAccepted) = 1 ∧
    (runVerifies mockRecover "0xPAY" proofA "/summarize/logs" 110 3
       (Ledger.mk [])).1.count (Verdict.Rejected .Replayed) = 2 := by
  have h := claim2_exactly_one_redemption mockRecover "0xPAY" proofA
    "/summarize/logs" 110 (Ledger.mk []) 2 rfl (by decide) (by decide)
    (by decide) (by simp)
  exact ⟨(h.1 "n1" (Ledger.mk []) 2 (by simp)).1, h.2.1, h.2.2⟩

/-- C3: the verifier runs its checks in the fixed order path, terms,
expiry, signature, nonce; the first failing check determines the reason; a
rejection from checks 1-4 leaves the ledger unchanged, and the nonce is
consumed exactly when all four prior checks passed and it was fresh. -/
theorem claim3_check_order_first_failure
    (recover : String → String → Option String) (payTo : String)
    (p : Proof) (path : String) (now : Nat) (l : Ledger) :
    (p.invoice.path ≠ path →
       verify recover payTo p path now l = (.Rejected .PathMismatch, l)) ∧
    (p.invoice.path = path →
       priceFor payTo path ≠ some (p.invoice.price, p.invoice.pay_to) →
       verify recover payTo p path now l = (.Rejected .TermsMismatch, l)) ∧
    (p.invoice.path = path →
       priceFor payTo path = some (p.invoice.price, p.invoice.pay_to) →
       p.invoice.expires_at < now →
       verify recover payTo p path now l = (.Rejected .Expired, l)) ∧
    (p.invoice.path = path →
       priceFor payTo path = some (p.invoice.price, p.invoice.pay_to) →
       now ≤ p.invoice.expires_at →
       recover (canonicalMessage p.invoice) p.signature ≠ some p.payer →
       verify recover payTo p path now l = (.Rejected .InvalidSignature, l)) ∧
    (p.invoice.path = path →
       priceFor payTo path = some (p.invoice.price, p.invoice.pay_to) →
       now ≤ p.invoice.expires_at →
       recover (canonicalMessage p.invoice) p.signature = some p.payer →
       (p.invoice.nonce ∉ l.redeemed →
          verify recover payTo p path now l =
            (.Accepted p.payer, ⟨p.invoice.nonce :: l.redeemed⟩)) ∧
       (p.invoice.nonce ∈ l.redeemed →
          verify recover payTo p path now l = (.Rejected .Replayed, l))) := by
  refine ⟨?_, ?_, ?_, ?_, ?_⟩
  · intro h
    simp [verify, h]
  · intro hpath h
    simp [verify, hpath, h]
  · intro hpath hterms h
    simp [verify, hpath, hterms, Nat.not_le.mpr h]
  · intro hpath hterms htime h
    simp [verify, hpath, hterms, htime, h]
  · intro hpath hterms htime hsig
    exact ⟨fun hfresh => verify_ok_fresh hpath hterms htime hsig hfresh,
           fun hmem => verify_replayed hpath hterms htime hsig hmem⟩

/-- Witness for C3 at a path-mismatching submission. -/
theorem claim3_check_order_first_failure_witness :
    verify mockRecover "0xPAY" proofA "/extract/pdf" 110 (Ledger.mk []) =
      (.Rejected .PathMismatch, Ledger.mk []) := by
  exact (claim3_check_order_first_failure mockRecover "0xPAY" proofA
    "/extract/pdf" 110 (Ledger.mk [])).1 (by decide)

/-- C6: an expired but otherwise path- and terms-matching proof is rejected
as Expired no matter the signature, and a proof with now at or before
expires_at is never rejected for expiry. -/
theorem claim6_expiry
    (recover : String → String → Option String) (payTo : String)
    (p : Proof) (path : String) (now : Nat) (l : Ledger) :
    (p.invoice.path = path →
       priceFor payTo path = some (p.invoice.price, p.invoice.pay_to) →
       p.invoice.expires_at < now →
       (verify recover payTo p path now l).1 = .Rejected .Expired) ∧
    (now ≤ p.invoice.expires_at →
       (verify recover payTo p path now l).1 ≠ .Rejected .Expired) := by
  constructor
  · intro hpath hterms h
    simp [verify, hpath, hterms, Nat.not_le.mpr h]
  · intro htime
    by_cases h1 : p.invoice.path = path
    case neg => simp [verify, h1]
    by_cases h2 : priceFor payTo path = some (p.invoice.price, p.invoice.pay_to)
    case neg => simp [verify, h1, h2]
    by_cases h4 : recover (canonicalMessage p.invoice) p.signature = some p.payer
    case neg => simp [verify, h1, h2, htime, h4]
    rcases htr : tryRedeem l p.invoice.nonce with ⟨r, l2⟩
    cases r <;> simp [verify, h1, h2, htime, h4, htr]

/-- Witness for C6 at an expired submission with a correct signature. -/
theorem claim6_expiry_witness :
    (verify mockRecover "0xPAY" proofA "/summarize/logs" 500 (Ledger.mk [])).1
      = .Rejected .Expired := by
  exact (claim6_expiry mockRecover "0xPAY" proofA "/summarize/logs" 500
    (Ledger.mk [])).1 rfl (by decide) (by decide)

/-- C4: the canonical message derived from an Invoice is exactly the
frozen pipe-separated template with every placeholder replaced by the
corresponding field verbatim, in the fixed order, and the client-side
signing derivation and the verifier-side derivation produce the identical
string from the same Invoice. -/
theorem claim4_canonical_message (inv : Invoice) :
    clientSignedMessage inv =
      "x402-local-wallet|invoice_id=" ++ inv.invoice_id
      ++ "|path=" ++ inv.path
      ++ "|price=" ++ inv.price
      ++ "|pay_to=" ++ inv.pay_to
      ++ "|nonce=" ++ inv.nonce
      ++ "|expires_at=" ++ Nat.repr inv.expires_at ∧
    clientSignedMessage inv = canonicalMessage inv :=
  ⟨rfl, rfl⟩

/-- C5: when the wallet client retries, the proof travels in the single
X-X402-Proof header whose value is the base64 of the JSON object with keys
invoice, payer, signature, and the invoice inside the encoded proof is the
unmodified Invoice the client received. -/
theorem claim5_proof_header_encoding
    (sign : String → String) (walletAddress : String)
    (r : Resp402) (hdrs : Headers) (inv : Invoice)
    (hmode : resolveMode r.headerMode r.bodyMode = "wallet")
    (hinv : r.bodyInvoice = some inv)
    (habsent : getHeader hdrs "X-X402-Proof" = none) :
    getHeader (walletRetryHeaders sign walletAddress r hdrs) "X-X402-Proof" =
      some (btoa (jsonOfProof
        { invoice := inv, payer := walletAddress,
          signature := sign (clientSignedMessage inv) })) ∧
    (walletRetryHeaders sign walletAddress r hdrs).countP
      (fun e => e.1 == "X-X402-Proof") = 1 ∧
    (Proof.mk inv walletAddress (sign (clientSignedMessage inv))).invoice = inv := by
  have hw : walletRetryHeaders sign walletAddress r hdrs =
      setHeader hdrs "X-X402-Proof"
        (proofHeaderValue inv walletAddress (sign (clientSignedMessage inv))) := by
    simp [walletRetryHeaders, hmode, hinv]
  refine ⟨?_, ?_, rfl⟩
  · rw [hw, getHeader_setHeader_self]
    rfl
  · rw [hw]
    exact countP_setHeader_of_absent hdrs _ _ habsent

/-- Witness for C5 at a concrete wallet-mode 402 response. -/
theorem claim5_proof_header_encoding_witness :
    getHeader
      (walletRetryHeaders mockSign "0xA"
        (Resp402.mk none none (some invA)) [("Content-Type", "text/plain")])
      "X-X402-Proof" =
      some (btoa (jsonOfProof
        { invoice := invA, payer := "0xA",
          signature := mockSign (clientSignedMessage invA) })) ∧
    (walletRetryHeaders mockSign "0xA"
      (Resp402.mk none none (some invA)) [("Content-Type", "text/plain")]).countP
      (fun e => e.1 == "X-X402-Proof") = 1 := by
  have h := claim5_proof_header_encoding mockSign "0xA"
    (Resp402.mk none none (some invA)) [("Content-Type", "text/plain")] invA
    rfl rfl (by decide)
  exact ⟨h.1, h.2.1⟩

/-- C7: for a configured route the issuer returns an invoice with
issued_at equal to the clock reading and expires_at equal to issued_at
plus the TTL (default 300 seconds); an unconfigured path fails with
UnknownRoute, and no other failure mode exists. -/
theorem claim7_issue_timestamps
    (payTo : String) (ttl : Nat) (freshId freshNonce path : String) (now : Nat) :
    (∀ pr pt, priceFor payTo path = some (pr, pt) →
       ∃ inv, issue payTo ttl freshId freshNonce path now = .ok inv ∧
         inv.issued_at = now ∧ inv.expires_at = inv.issued_at + ttl ∧
         inv.path = path ∧ inv.price = pr ∧ inv.pay_to = pt) ∧
    (priceFor payTo path = none →
       issue payTo ttl freshId freshNonce path now = .error .UnknownRoute) ∧
    (∀ e, issue payTo ttl freshId freshNonce path now = .error e →
       e = .UnknownRoute) ∧
    defaultInvoiceTTL = 300 := by
  refine ⟨?_, ?_, ?_, rfl⟩
  · intro pr pt h
    exact ⟨{ invoice_id := freshId, path := path, price := pr, pay_to := pt,
             nonce := freshNonce, issued_at := now, expires_at := now + ttl },
           by simp [issue, h], rfl, rfl, rfl, rfl, rfl⟩
  · intro h
    simp [issue, h]
  · intro e _
    cases e
    rfl

/-- Witness for C7 at the summarize-logs route and an unknown route. -/
theorem claim7_issue_timestamps_witness :
    (∃ inv, issue "0xPAY" 300 "id1" "n9" "/summarize/logs" 100 = .ok inv ∧
       inv.issued_at = 100 ∧ inv.expires_at = inv.issued_at + 300 ∧
       inv.path = "/summarize/logs" ∧ inv.price = "0.02" ∧ inv.pay_to = "0xPAY") ∧
    issue "0xPAY" 300 "id1" "n9" "/unknown" 100 = .error .UnknownRoute := by
  constructor
  · exact (claim7_issue_timestamps "0xPAY" 300 "id1" "n9" "/summarize/logs"
      100).1 "0.02" "0xPAY" (by decide)
  · exact (claim7_issue_timestamps "0xPAY" 300 "id1" "n9" "/unknown"
      100).2.1 (by decide)

/-- C8: a first request without a proof on a configured route gets a
challenge with a payment-required status, price, pay_to and path headers,
a body carrying the full invoice plus redundant top-level price and pay_to,
and a mode discriminator that is either wallet or mock; the ledger is
untouched. -/
theorem claim8_challenge_shape
    (mode : GateMode) (recover : String → String → Option String)
    (payTo : String) (ttl : Nat) (freshId freshNonce receiptId path : String)
    (now : Nat) (l : Ledger) (pr pt : String)
    (hpr : priceFor payTo path = some (pr, pt)) :
    ∃ c, gateStep mode recover payTo ttl freshId freshNonce receiptId path
        .absent now l = (.challenge c, l) ∧
      c.status = 402 ∧
      c.headerPrice = pr ∧ c.headerPayTo = pt ∧ c.headerPath = path ∧
      c.bodyInvoice.path = path ∧ c.bodyInvoice.price = pr ∧
      c.bodyInvoice.pay_to = pt ∧
      c.bodyPrice = c.bodyInvoice.price ∧ c.bodyPayTo = c.bodyInvoice.pay_to ∧
      (c.bodyMode = "wallet" ∨ c.bodyMode = "mock") := by
  refine ⟨mkChallenge mode
    { invoice_id := freshId, path := path, price := pr, pay_to := pt,
      nonce := freshNonce, issued_at := now, expires_at := now + ttl },
    ?_, rfl, rfl, rfl, rfl, rfl, rfl, rfl, rfl, rfl, ?_⟩
  · simp [gateStep, issue, hpr]
  · cases mode
    · exact Or.inl rfl
    · exact Or.inr rfl

/-- Witness for C8 at the validate-csv route in wallet mode. -/
theorem claim8_challenge_shape_witness :
    ∃ c, gateStep .wallet mockRecover "0xPAY" 300 "id1" "n9" "r1"
        "/validate/csv" .absent 100 (Ledger.mk []) =
        (.challenge c, Ledger.mk []) ∧
      c.status = 402 ∧
      c.headerPrice = "0.01" ∧ c.headerPayTo = "0xPAY" ∧
      c.headerPath = "/validate/csv" ∧
      c.bodyInvoice.path = "/validate/csv" ∧ c.bodyInvoice.price = "0.01" ∧
      c.bodyInvoice.pay_to = "0xPAY" ∧
      c.bodyPrice = c.bodyInvoice.price ∧ c.bodyPayTo = c.bodyInvoice.pay_to ∧
      (c.bodyMode = "wallet" ∨ c.bodyMode = "mock") := by
  exact claim8_challenge_shape .wallet mockRecover "0xPAY" 300 "id1" "n9" "r1"
    "/validate/csv" 100 (Ledger.mk []) "0.01" "0xPAY" (by decide)

/-- C9: the mock demo client retries at most once: a 402 first response
triggers exactly one resubmission carrying X-X402-Mock-Paid set to true,
any other first status triggers none, and whatever the retry returns is
final, so the client never loops. -/
theorem claim9_mock_client_single_retry
    (server : String → Headers → ClientResponse) (path : String)
    (hdrs : Headers) :
    (mockHandleRequest server path hdrs).1.length ≤ 2 ∧
    ((server path hdrs).status = 402 →
       (mockHandleRequest server path hdrs).1 =
         [(path, hdrs), (path, setHeader hdrs "X-X402-Mock-Paid" "true")] ∧
       getHeader (setHeader hdrs "X-X402-Mock-Paid" "true")
         "X-X402-Mock-Paid" = some "true" ∧
       (mockHandleRequest server path hdrs).2 =
         server path (setHeader hdrs "X-X402-Mock-Paid" "true")) ∧
    ((server path hdrs).status ≠ 402 →
       (mockHandleRequest server path hdrs).1 = [(path, hdrs)] ∧
       (mockHandleRequest server path hdrs).2 = server path hdrs) := by
  by_cases h : (server path hdrs).status = 402 <;>
    simp [mockHandleRequest, h, getHeader_setHeader_self]

/-- Witness for C9 against a server that answers 402 to every request,
including the retry. -/
theorem claim9_mock_client_single_retry_witness :
    (mockHandleRequest (fun _ _ => ClientResponse.mk 402) "/extract/pdf" []).1 =
      [("/extract/pdf", ([] : Headers)),
       ("/extract/pdf", setHeader [] "X-X402-Mock-Paid" "true")] ∧
    getHeader (setHeader [] "X-X402-Mock-Paid" "true") "X-X402-Mock-Paid" =
      some "true" ∧
    (mockHandleRequest (fun _ _ => ClientResponse.mk 402) "/extract/pdf" []).2 =
      (fun (_ : String) (_ : Headers) => ClientResponse.mk 402) "/extract/pdf"
        (setHeader [] "X-X402-Mock-Paid" "true") := by
  exact (claim9_mock_client_single_retry (fun _ _ => ClientResponse.mk 402)
    "/extract/pdf" []).2.1 rfl

/-- C10: the wallet client attaches a signed proof header exactly when the
resolved mode discriminator is wallet and the body carries an invoice; for
any other mode or a missing invoice the retry headers are unchanged, and
the mock marker header is never touched. -/
theorem claim10_wallet_client_mode_gating
    (sign : String → String) (walletAddress : String)
    (r : Resp402) (hdrs : Headers) :
    (∀ inv, resolveMode r.headerMode r.bodyMode = "wallet" →
       r.bodyInvoice = some inv →
       walletRetryHeaders sign walletAddress r hdrs =
         setHeader hdrs "X-X402-Proof"
           (proofHeaderValue inv walletAddress (sign (clientSignedMessage inv)))) ∧
    (resolveMode r.headerMode r.bodyMode ≠ "wallet" →
       walletRetryHeaders sign walletAddress r hdrs = hdrs) ∧
    (r.bodyInvoice = none →
       walletRetryHeaders sign walletAddress r hdrs = hdrs) ∧
    getHeader (walletRetryHeaders sign walletAddress r hdrs)
      "X-X402-Mock-Paid" = getHeader hdrs "X-X402-Mock-Paid" := by
  refine ⟨?_, ?_, ?_, ?_⟩
  · intro inv hmode hinv
    simp [walletRetryHeaders, hmode, hinv]
  · intro hmode
    simp [walletRetryHeaders, hmode]
  · intro hinv
    unfold walletRetryHeaders
    rw [hinv]
    split <;> rfl
  · unfold walletRetryHeaders
    split
    · rcases hb : r.bodyInvoice with _ | inv
      · rfl
      · exact getHeader_setHeader_ne hdrs _ (by decide)
    · rfl

/-- Witness for C10 at a mock-mode 402 response carrying an invoice. -/
theorem claim10_wallet_client_mode_gating_witness :
    walletRetryHeaders mockSign "0xA"
      (Resp402.mk (some "mock") none (some invA))
      [("Content-Type", "text/plain")] = [("Content-Type", "text/plain")] := by
  exact (claim10_wallet_client_mode_gating mockSign "0xA"
    (Resp402.mk (some "mock") none (some invA))
    [("Content-Type", "text/plain")]).2.1 (by decide)

end X402
